import Mathlib

/-!
Shallow embedding of the integration driver in src/intg-requests/driver.py.

The driver is a set of event-handler callbacks over three pieces of state:
a persisted key-value config store (module config, collaborator), the
integration-framework state (available entities and device state), and the
log. Handlers are modelled as pure functions on an explicit DriverState;
the fallible startup routine returns Option.
-/

/-- Modelled from the spec: a value held by the config store (config.py is
not under src/). The store holds per-command id/name strings and the
boolean standby flag. -/
inductive ConfigValue where
  | str : String → ConfigValue
  | bool : Bool → ConfigValue
deriving DecidableEq

/-- Modelled from the spec: the config store (config.py, not under src/) is
a key-value store exposing get(key) and set(key, value), holding the list
of command identifiers, per-command display name/id pairs, and the standby
flag. -/
structure ConfigStore where
  cmds : List String
  entries : List (String × ConfigValue)
deriving DecidableEq

/-- Modelled from the spec: get(key) on the config store; a missing key is
an unhandled lookup failure, rendered as none. -/
def ConfigStore.get (c : ConfigStore) (k : String) : Option ConfigValue :=
  (c.entries.find? (fun p => p.1 == k)).map Prod.snd

/-- A get that must yield a string value, as the id and name lookups in
startcheck use the value as a string. -/
def ConfigStore.getStr (c : ConfigStore) (k : String) : Option String :=
  match c.get k with
  | some (ConfigValue.str s) => some s
  | _ => none

/-- Modelled from the spec: set(key, value) on the config store. The new
binding replaces any previous binding of the key. -/
def ConfigStore.set (c : ConfigStore) (k : String) (v : ConfigValue) : ConfigStore :=
  { c with entries := (k, v) :: c.entries.filter (fun p => p.1 != k) }

/-- Device states of the external integration framework (ucapi
DeviceStates), as used by the connect/disconnect handlers. -/
inductive DeviceStates where
  | CONNECTED
  | CONNECTING
  | DISCONNECTED
  | ERROR
deriving DecidableEq

/-- Status codes returned by command handlers to the integration framework
(ucapi StatusCodes). -/
inductive StatusCodes where
  | OK
  | BAD_REQUEST
  | UNAUTHORIZED
  | NOT_FOUND
  | TIMEOUT
  | CONFLICT
  | SERVER_ERROR
  | NOT_IMPLEMENTED
  | SERVICE_UNAVAILABLE
deriving DecidableEq

/-- The single feature the driver declares on its media player entities
(ucapi.media_player.Features.SELECT_SOURCE). -/
inductive Features where
  | SELECT_SOURCE
deriving DecidableEq

/-- The command-handler reference bound into an entity definition; the
driver always binds mp_cmd_handler. -/
inductive CmdHandlerRef where
  | mpCmdHandler
deriving DecidableEq

/-- An entity definition as constructed by add_mp: identifier, display
name, feature list, attribute map and bound command handler. -/
structure Entity where
  id : String
  name : String
  features : List Features
  attributes : List (String × String)
  cmd_handler : CmdHandlerRef
deriving DecidableEq

/-- The entity definition built in add_mp: ucapi.MediaPlayer(id, name,
[SELECT_SOURCE], attributes={}, cmd_handler=mp_cmd_handler). -/
def mediaPlayerEntity (id name : String) : Entity :=
  { id := id
    name := name
    features := [Features.SELECT_SOURCE]
    attributes := []
    cmd_handler := CmdHandlerRef.mpCmdHandler }

/-- The integration-framework state visible to the driver: the
available-entity set and the device state set via api.set_device_state. -/
structure ApiState where
  availableEntities : List Entity
  deviceState : DeviceStates
deriving DecidableEq

/-- api.available_entities.contains(id): membership of an entity id in the
available-entity set. -/
def containsId (es : List Entity) (i : String) : Bool :=
  es.any (fun e => e.id == i)

/-- Number of available entities carrying a given id. -/
def countId (es : List Entity) (i : String) : Nat :=
  es.countP (fun e => e.id == i)

/-- The whole driver-visible state: config store, framework state, log. -/
structure DriverState where
  config : ConfigStore
  api : ApiState
  log : List String
deriving DecidableEq

/-- add_mp(id, name): build the media player entity definition, add it to
the available-entity set and log. -/
def add_mp (api : ApiState) (log : List String) (id name : String) :
    ApiState × List String :=
  let definition := mediaPlayerEntity id name
  ({ api with availableEntities := api.availableEntities ++ [definition] },
   log ++ ["Added media player entity with id " ++ id ++ " and name " ++ name])

/-- One iteration of the startcheck loop for a single cmd: look up
"id-"+cmd and "name-"+cmd in the config store, then skip (with a log note)
when an entity with that id is already available, else add via add_mp.
A missing key is an unhandled lookup failure (none). -/
def startcheckStep (cfg : ConfigStore) (st : ApiState × List String) (cmd : String) :
    Option (ApiState × List String) :=
  match cfg.getStr ("id-" ++ cmd), cfg.getStr ("name-" ++ cmd) with
  | some id, some name =>
    if containsId st.1.availableEntities id then
      some (st.1,
        st.2 ++ ["Entity with id " ++ id ++ " is already in storage as available entity"])
    else
      some (add_mp st.1
        (st.2 ++ ["Add entity with id " ++ id ++ " and name " ++ name ++ " as available entity"])
        id name)
  | _, _ => none

/-- The startcheck loop over a list of cmds. -/
def startcheckAux (cfg : ConfigStore) : List String → ApiState × List String →
    Option (ApiState × List String)
  | [], st => some st
  | cmd :: rest, st =>
    match startcheckStep cfg st cmd with
    | none => none
    | some st₂ => startcheckAux cfg rest st₂

/-- startcheck(): iterate over config.setup.cmds, registering one media
player entity per configured command unless already present. -/
def startcheck (s : DriverState) : Option DriverState :=
  match startcheckAux s.config s.config.cmds (s.api, s.log) with
  | none => none
  | some st => some { s with api := st.1, log := st.2 }

/-- Rendering of a parameter mapping for the log message. -/
def paramsRepr (ps : List (String × String)) : String :=
  String.intercalate ", " (ps.map (fun p => p.1 ++ ": " ++ p.2))

/-- mp_cmd_handler(entity, cmd_id, _params): log the invocation, then
delegate to media_player.mp_cmd_assigner(entity.id, cmd_id, _params) and
return its status code. The external dispatcher (media_player.py, not
under src/) is passed in as a function. -/
def mp_cmd_handler
    (mp_cmd_assigner : String → String → Option (List (String × String)) → StatusCodes)
    (log : List String) (entity : Entity) (cmd_id : String)
    (_params : Option (List (String × String))) : List String × StatusCodes :=
  let log₂ :=
    match _params with
    | none => log ++ ["Received " ++ cmd_id ++ " command for " ++ entity.id]
    | some ps => log ++ ["Received " ++ cmd_id ++ " command with parameter " ++
        paramsRepr ps ++ " for " ++ entity.id]
  (log₂, mp_cmd_assigner entity.id cmd_id _params)

/-- on_r2_connect: log and set the framework device state to CONNECTED. -/
def on_r2_connect (s : DriverState) : DriverState :=
  { s with
    log := s.log ++ ["Received connect event message from remote"]
    api := { s.api with deviceState := DeviceStates.CONNECTED } }

/-- on_r2_disconnect: log and set the framework device state to
DISCONNECTED. -/
def on_r2_disconnect (s : DriverState) : DriverState :=
  { s with
    log := s.log ++ ["Received disconnect event message from remote"]
    api := { s.api with deviceState := DeviceStates.DISCONNECTED } }

/-- on_r2_enter_standby: log and set the standby flag in the config store
to True. -/
def on_r2_enter_standby (s : DriverState) : DriverState :=
  { s with
    log := s.log ++ ["Received enter standby event message from remote",
                     "Set config.R2_IN_STANDBY to True"]
    config := s.config.set "standby" (ConfigValue.bool true) }

/-- on_r2_exit_standby: log and set the standby flag in the config store
to False. -/
def on_r2_exit_standby (s : DriverState) : DriverState :=
  { s with
    log := s.log ++ ["Received exit standby event message from remote",
                     "Set config.R2_IN_STANDBY to False"]
    config := s.config.set "standby" (ConfigValue.bool false) }

/-- on_subscribe_entities(entity_ids): log the ids and set the standby
flag in the config store to False. -/
def on_subscribe_entities (s : DriverState) (entity_ids : List String) : DriverState :=
  { s with
    log := s.log ++ ["Received subscribe entities event for entity ids: " ++
      String.intercalate ", " entity_ids]
    config := s.config.set "standby" (ConfigValue.bool false) }

/-- on_unsubscribe_entities(entity_ids): log the ids only. -/
def on_unsubscribe_entities (s : DriverState) (entity_ids : List String) : DriverState :=
  { s with
    log := s.log ++ ["Unsubscribe entities event for entity ids: " ++
      String.intercalate ", " entity_ids] }

theorem find?_filter_ne (es : List (String × ConfigValue)) (k k₀ : String) (h : k ≠ k₀) :
    (es.filter (fun p => p.1 != k₀)).find? (fun p => p.1 == k) =
      es.find? (fun p => p.1 == k) := by
  induction es with
  | nil => rfl
  | cons e es ih =>
    by_cases he : e.1 = k
    · simp [List.filter_cons, List.find?_cons, he, h]
    · by_cases he₀ : e.1 = k₀
      · have h2 : k₀ ≠ k := Ne.symm h
        simp [List.filter_cons, List.find?_cons, he, he₀, ih, h2]
      · simp [List.filter_cons, List.find?_cons, he, he₀, ih]

theorem ConfigStore.get_set_same (c : ConfigStore) (k : String) (v : ConfigValue) :
    (c.set k v).get k = some v := by
  simp [ConfigStore.set, ConfigStore.get, List.find?_cons]

theorem ConfigStore.get_set_other (c : ConfigStore) (k₀ k : String) (v : ConfigValue)
    (h : k ≠ k₀) : (c.set k₀ v).get k = c.get k := by
  simp only [ConfigStore.set, ConfigStore.get, List.find?_cons]
  have h2 : k₀ ≠ k := Ne.symm h
  have hk : (k₀ == k) = false := by simp [h2]
  simp [hk, find?_filter_ne c.entries k k₀ h]

theorem ConfigStore.set_set_same (c : ConfigStore) (k : String) (v : ConfigValue) :
    (c.set k v).set k v = c.set k v := by
  have hfilter : ∀ es : List (String × ConfigValue),
      ((k, v) :: es).filter (fun p => p.1 != k) = es.filter (fun p => p.1 != k) := by
    intro es
    rw [List.filter_cons]
    simp
  simp only [ConfigStore.set, ConfigStore.mk.injEq, true_and]
  rw [hfilter, List.filter_filter]
  simp only [Bool.and_self]

/-- Claim C2: for every entity, command identifier, and optional parameter
mapping (including none), mp_cmd_handler returns exactly the status code
that the external dispatcher mp_cmd_assigner(entity.id, cmd_id, _params)
returns, with no modification. -/
theorem mp_cmd_handler_returns_dispatcher_status
    (mp_cmd_assigner : String → String → Option (List (String × String)) → StatusCodes)
    (log : List String) (entity : Entity) (cmd_id : String)
    (_params : Option (List (String × String))) :
    (mp_cmd_handler mp_cmd_assigner log entity cmd_id _params).2 =
      mp_cmd_assigner entity.id cmd_id _params := by
  cases _params <;> rfl

/-- Claim C3: the enter-standby handler sets the standby flag to true, the
exit-standby handler sets it to false, and the subscribe-entities handler
sets it to false, for any starting value of the flag. -/
theorem standby_handlers_set_flag (s : DriverState) (entity_ids : List String) :
    (on_r2_enter_standby s).config.get "standby" = some (ConfigValue.bool true) ∧
    (on_r2_exit_standby s).config.get "standby" = some (ConfigValue.bool false) ∧
    (on_subscribe_entities s entity_ids).config.get "standby" =
      some (ConfigValue.bool false) := by
  refine ⟨?_, ?_, ?_⟩ <;>
    simp [on_r2_enter_standby, on_r2_exit_standby, on_subscribe_entities,
      ConfigStore.get_set_same]

/-- Claim C4, counterexample: the subscribe-entities handler leaves the
standby flag false, not true, contradicting the data-model sentence that
it is set to true on the subscribe-entities event. -/
theorem subscribe_entities_standby_cex :
    ¬ ((on_subscribe_entities
        { config := { cmds := [], entries := [] }
          api := { availableEntities := [], deviceState := DeviceStates.CONNECTED }
          log := [] } ["e1"]).config.get "standby" = some (ConfigValue.bool true)) := by
  decide

/-- Claim C4, amended: the standby flag is set to true on the
enter-standby event and to false on both the exit-standby and the
subscribe-entities events. -/
theorem standby_flag_event_transitions (s : DriverState) (entity_ids : List String) :
    (on_r2_enter_standby s).config.get "standby" = some (ConfigValue.bool true) ∧
    (on_subscribe_entities s entity_ids).config.get "standby" =
      some (ConfigValue.bool false) ∧
    (on_r2_exit_standby s).config.get "standby" = some (ConfigValue.bool false) := by
  refine ⟨?_, ?_, ?_⟩ <;>
    simp [on_r2_enter_standby, on_r2_exit_standby, on_subscribe_entities,
      ConfigStore.get_set_same]

/-- Claim C6: for any list of entity ids, the unsubscribe-entities handler
mutates neither the config store nor the framework state; its only effect
is one appended log message. -/
theorem unsubscribe_entities_no_state_change (s : DriverState) (entity_ids : List String) :
    (on_unsubscribe_entities s entity_ids).config = s.config ∧
    (on_unsubscribe_entities s entity_ids).api = s.api ∧
    (on_unsubscribe_entities s entity_ids).log =
      s.log ++ ["Unsubscribe entities event for entity ids: " ++
        String.intercalate ", " entity_ids] :=
  ⟨rfl, rfl, rfl⟩

/-- Claim C7: the connect handler sets the framework device state to
CONNECTED and the disconnect handler sets it to DISCONNECTED; neither
touches the config store or the available-entity set. -/
theorem connect_disconnect_device_state (s : DriverState) :
    (on_r2_connect s).api.deviceState = DeviceStates.CONNECTED ∧
    (on_r2_connect s).config = s.config ∧
    (on_r2_connect s).api.availableEntities = s.api.availableEntities ∧
    (on_r2_disconnect s).api.deviceState = DeviceStates.DISCONNECTED ∧
    (on_r2_disconnect s).config = s.config ∧
    (on_r2_disconnect s).api.availableEntities = s.api.availableEntities :=
  ⟨rfl, rfl, rfl, rfl, rfl, rfl⟩

/-- Claim C9: every lifecycle event handler is idempotent on the config
store and the framework device state: running it twice from any state
agrees with running it once. -/
theorem lifecycle_handlers_idempotent (s : DriverState) (entity_ids : List String) :
    ((on_r2_connect (on_r2_connect s)).config = (on_r2_connect s).config ∧
      (on_r2_connect (on_r2_connect s)).api.deviceState =
        (on_r2_connect s).api.deviceState) ∧
    ((on_r2_disconnect (on_r2_disconnect s)).config = (on_r2_disconnect s).config ∧
      (on_r2_disconnect (on_r2_disconnect s)).api.deviceState =
        (on_r2_disconnect s).api.deviceState) ∧
    ((on_r2_enter_standby (on_r2_enter_standby s)).config =
        (on_r2_enter_standby s).config ∧
      (on_r2_enter_standby (on_r2_enter_standby s)).api.deviceState =
        (on_r2_enter_standby s).api.deviceState) ∧
    ((on_r2_exit_standby (on_r2_exit_standby s)).config =
        (on_r2_exit_standby s).config ∧
      (on_r2_exit_standby (on_r2_exit_standby s)).api.deviceState =
        (on_r2_exit_standby s).api.deviceState) ∧
    ((on_subscribe_entities (on_subscribe_entities s entity_ids) entity_ids).config =
        (on_subscribe_entities s entity_ids).config ∧
      (on_subscribe_entities (on_subscribe_entities s entity_ids) entity_ids).api.deviceState =
        (on_subscribe_entities s entity_ids).api.deviceState) ∧
    ((on_unsubscribe_entities (on_unsubscribe_entities s entity_ids) entity_ids).config =
        (on_unsubscribe_entities s entity_ids).config ∧
      (on_unsubscribe_entities (on_unsubscribe_entities s entity_ids) entity_ids).api.deviceState =
        (on_unsubscribe_entities s entity_ids).api.deviceState) := by
  refine ⟨⟨rfl, rfl⟩, ⟨rfl, rfl⟩, ⟨?_, rfl⟩, ⟨?_, rfl⟩, ⟨?_, rfl⟩, ⟨rfl, rfl⟩⟩ <;>
    simp [on_r2_enter_standby, on_r2_exit_standby, on_subscribe_entities,
      ConfigStore.set_set_same]

/-- Claim C10: the effects of the subscribe-entities and
unsubscribe-entities handlers on the config store and the framework state
do not depend on the entity_ids argument. -/
theorem subscribe_effects_ignore_entity_ids (s : DriverState)
    (ids1 ids2 : List String) :
    (on_subscribe_entities s ids1).config = (on_subscribe_entities s ids2).config ∧
    (on_subscribe_entities s ids1).api = (on_subscribe_entities s ids2).api ∧
    (on_unsubscribe_entities s ids1).config = (on_unsubscribe_entities s ids2).config ∧
    (on_unsubscribe_entities s ids1).api = (on_unsubscribe_entities s ids2).api :=
  ⟨rfl, rfl, rfl, rfl⟩

@[simp] theorem mediaPlayerEntity_id (id name : String) :
    (mediaPlayerEntity id name).id = id := rfl

theorem countId_append (es₁ es₂ : List Entity) (x : String) :
    countId (es₁ ++ es₂) x = countId es₁ x + countId es₂ x := by
  simp [countId, List.countP_append]

theorem countId_singleton (e : Entity) (x : String) :
    countId [e] x = if e.id == x then 1 else 0 := by
  simp [countId, List.countP_cons]

theorem countId_pos_iff (es : List Entity) (i : String) :
    0 < countId es i ↔ containsId es i = true := by
  induction es with
  | nil => simp [containsId, countId]
  | cons e es ih =>
    simp only [containsId, countId, List.any_cons, List.countP_cons] at ih ⊢
    by_cases h : (e.id == i) = true <;> simp [h, ih]

theorem countId_eq_zero_of_not_contains (es : List Entity) (i : String)
    (h : containsId es i = false) : countId es i = 0 := by
  by_contra hne
  have hpos : 0 < countId es i := Nat.pos_of_ne_zero hne
  rw [countId_pos_iff] at hpos
  simp [h] at hpos

theorem startcheckStep_some_elim {cfg : ConfigStore} {st st₂ : ApiState × List String}
    {cmd : String} (h : startcheckStep cfg st cmd = some st₂) :
    ∃ id name, cfg.getStr ("id-" ++ cmd) = some id ∧
      cfg.getStr ("name-" ++ cmd) = some name ∧
      ((containsId st.1.availableEntities id = true ∧ st₂.1 = st.1) ∨
        (containsId st.1.availableEntities id = false ∧
          st₂.1 = { st.1 with availableEntities :=
            st.1.availableEntities ++ [mediaPlayerEntity id name] })) := by
  rcases hid : cfg.getStr ("id-" ++ cmd) with _ | id
  · simp [startcheckStep, hid] at h
  · rcases hname : cfg.getStr ("name-" ++ cmd) with _ | name
    · simp [startcheckStep, hid, hname] at h
    · simp only [startcheckStep, hid, hname] at h
      by_cases hc : containsId st.1.availableEntities id = true
      · rw [if_pos hc] at h
        have h2 := Option.some_inj.mp h
        exact ⟨id, name, rfl, rfl, Or.inl ⟨hc, by rw [← h2]⟩⟩
      · rw [if_neg hc] at h
        have h2 := Option.some_inj.mp h
        refine ⟨id, name, rfl, rfl, Or.inr ⟨Bool.eq_false_iff.mpr hc, ?_⟩⟩
        rw [← h2]
        simp [add_mp]

theorem step_preserves_inv {cfg : ConfigStore} {st st₂ : ApiState × List String}
    {cmd : String} (h : startcheckStep cfg st cmd = some st₂)
    (hinv : ∀ x, countId st.1.availableEntities x ≤ 1) :
    ∀ x, countId st₂.1.availableEntities x ≤ 1 := by
  obtain ⟨id, name, _, _, hcase⟩ := startcheckStep_some_elim h
  rcases hcase with ⟨hc, heq⟩ | ⟨hc, heq⟩
  · rw [heq]; exact hinv
  · intro x
    rw [heq]
    by_cases hix : id = x
    · subst hix
      have hzero := countId_eq_zero_of_not_contains _ _ hc
      simp [countId_append, countId_singleton, hzero]
    · simp [countId_append, countId_singleton, hix]
      exact hinv x

theorem step_count_one {cfg : ConfigStore} {st st₂ : ApiState × List String}
    {cmd id : String} (h : startcheckStep cfg st cmd = some st₂)
    (hid : cfg.getStr ("id-" ++ cmd) = some id)
    (hinv : ∀ x, countId st.1.availableEntities x ≤ 1) :
    countId st₂.1.availableEntities id = 1 := by
  obtain ⟨id', name, hid', _, hcase⟩ := startcheckStep_some_elim h
  have hii : id' = id := Option.some_inj.mp (hid'.symm.trans hid)
  subst hii
  rcases hcase with ⟨hc, heq⟩ | ⟨hc, heq⟩
  · rw [heq]
    have hpos : 0 < countId st.1.availableEntities id' := (countId_pos_iff _ _).mpr hc
    have hle := hinv id'
    omega
  · rw [heq]
    have hzero := countId_eq_zero_of_not_contains _ _ hc
    simp [countId_append, countId_singleton, hzero]

theorem step_preserves_count_one {cfg : ConfigStore} {st st₂ : ApiState × List String}
    {cmd x : String} (h : startcheckStep cfg st cmd = some st₂)
    (hx : countId st.1.availableEntities x = 1) :
    countId st₂.1.availableEntities x = 1 := by
  obtain ⟨id, name, _, _, hcase⟩ := startcheckStep_some_elim h
  rcases hcase with ⟨hc, heq⟩ | ⟨hc, heq⟩
  · rw [heq]; exact hx
  · rw [heq]
    by_cases hix : id = x
    · subst hix
      have hzero := countId_eq_zero_of_not_contains _ _ hc
      omega
    · simp [countId_append, countId_singleton, hix, hx]

theorem containsId_append (es₁ es₂ : List Entity) (x : String) :
    containsId (es₁ ++ es₂) x = (containsId es₁ x || containsId es₂ x) := by
  simp [containsId]

theorem step_mono_contains {cfg : ConfigStore} {st st₂ : ApiState × List String}
    {cmd x : String} (h : startcheckStep cfg st cmd = some st₂)
    (hx : containsId st.1.availableEntities x = true) :
    containsId st₂.1.availableEntities x = true := by
  obtain ⟨id, name, _, _, hcase⟩ := startcheckStep_some_elim h
  rcases hcase with ⟨_, heq⟩ | ⟨_, heq⟩
  · rw [heq]; exact hx
  · rw [heq]
    simp [containsId_append, hx]

theorem step_contains_id {cfg : ConfigStore} {st st₂ : ApiState × List String}
    {cmd id : String} (h : startcheckStep cfg st cmd = some st₂)
    (hid : cfg.getStr ("id-" ++ cmd) = some id) :
    containsId st₂.1.availableEntities id = true := by
  obtain ⟨id', name, hid', _, hcase⟩ := startcheckStep_some_elim h
  obtain rfl : id' = id := Option.some_inj.mp (hid'.symm.trans hid)
  rcases hcase with ⟨hc, heq⟩ | ⟨_, heq⟩
  · rw [heq]; exact hc
  · rw [heq]
    simp [containsId_append, containsId]

theorem startcheckAux_preserves_inv (cfg : ConfigStore) (cmds : List String) :
    ∀ st st' : ApiState × List String,
    (∀ x, countId st.1.availableEntities x ≤ 1) →
    startcheckAux cfg cmds st = some st' →
    ∀ x, countId st'.1.availableEntities x ≤ 1 := by
  induction cmds with
  | nil =>
    intro st st' hinv hrun
    simp only [startcheckAux] at hrun
    obtain rfl := Option.some_inj.mp hrun
    exact hinv
  | cons c rest ih =>
    intro st st' hinv hrun
    cases hstep : startcheckStep cfg st c with
    | none =>
      simp only [startcheckAux, hstep] at hrun
      exact Option.noConfusion hrun
    | some st₂ =>
      simp only [startcheckAux, hstep] at hrun
      exact ih st₂ st' (step_preserves_inv hstep hinv) hrun

theorem startcheckAux_preserves_count_one (cfg : ConfigStore) (cmds : List String) :
    ∀ (st st' : ApiState × List String) (x : String),
    countId st.1.availableEntities x = 1 →
    startcheckAux cfg cmds st = some st' →
    countId st'.1.availableEntities x = 1 := by
  induction cmds with
  | nil =>
    intro st st' x hx hrun
    simp only [startcheckAux] at hrun
    obtain rfl := Option.some_inj.mp hrun
    exact hx
  | cons c rest ih =>
    intro st st' x hx hrun
    cases hstep : startcheckStep cfg st c with
    | none =>
      simp only [startcheckAux, hstep] at hrun
      exact Option.noConfusion hrun
    | some st₂ =>
      simp only [startcheckAux, hstep] at hrun
      exact ih st₂ st' x (step_preserves_count_one hstep hx) hrun

theorem startcheckAux_mono_contains (cfg : ConfigStore) (cmds : List String) :
    ∀ (st st' : ApiState × List String) (x : String),
    containsId st.1.availableEntities x = true →
    startcheckAux cfg cmds st = some st' →
    containsId st'.1.availableEntities x = true := by
  induction cmds with
  | nil =>
    intro st st' x hx hrun
    simp only [startcheckAux] at hrun
    obtain rfl := Option.some_inj.mp hrun
    exact hx
  | cons c rest ih =>
    intro st st' x hx hrun
    cases hstep : startcheckStep cfg st c with
    | none =>
      simp only [startcheckAux, hstep] at hrun
      exact Option.noConfusion hrun
    | some st₂ =>
      simp only [startcheckAux, hstep] at hrun
      exact ih st₂ st' x (step_mono_contains hstep hx) hrun

theorem startcheckAux_each_id_once (cfg : ConfigStore) (cmds : List String) :
    ∀ st st' : ApiState × List String,
    (∀ x, countId st.1.availableEntities x ≤ 1) →
    startcheckAux cfg cmds st = some st' →
    ∀ cmd, cmd ∈ cmds → ∀ id, cfg.getStr ("id-" ++ cmd) = some id →
    countId st'.1.availableEntities id = 1 := by
  induction cmds with
  | nil =>
    intro st st' _ _ cmd hmem
    cases hmem
  | cons c rest ih =>
    intro st st' hinv hrun cmd hmem id hid
    cases hstep : startcheckStep cfg st c with
    | none =>
      simp only [startcheckAux, hstep] at hrun
      exact Option.noConfusion hrun
    | some st₂ =>
      simp only [startcheckAux, hstep] at hrun
      rcases List.mem_cons.mp hmem with rfl | hmem'
      · have h1 := step_count_one hstep hid hinv
        exact startcheckAux_preserves_count_one cfg rest st₂ st' id h1 hrun
      · exact ih st₂ st' (step_preserves_inv hstep hinv) hrun cmd hmem' id hid

theorem startcheckAux_lookups_ok (cfg : ConfigStore) (cmds : List String) :
    ∀ st st' : ApiState × List String,
    startcheckAux cfg cmds st = some st' →
    ∀ cmd, cmd ∈ cmds → ∃ id name, cfg.getStr ("id-" ++ cmd) = some id ∧
      cfg.getStr ("name-" ++ cmd) = some name ∧
      containsId st'.1.availableEntities id = true := by
  induction cmds with
  | nil =>
    intro st st' _ cmd hmem
    cases hmem
  | cons c rest ih =>
    intro st st' hrun cmd hmem
    cases hstep : startcheckStep cfg st c with
    | none =>
      simp only [startcheckAux, hstep] at hrun
      exact Option.noConfusion hrun
    | some st₂ =>
      simp only [startcheckAux, hstep] at hrun
      rcases List.mem_cons.mp hmem with rfl | hmem'
      · obtain ⟨id, name, hid, hname, _⟩ := startcheckStep_some_elim hstep
        exact ⟨id, name, hid, hname,
          startcheckAux_mono_contains cfg rest st₂ st' id
            (step_contains_id hstep hid) hrun⟩
      · exact ih st₂ st' hrun cmd hmem'

theorem startcheckAux_all_contained_skip (cfg : ConfigStore) (cmds : List String) :
    ∀ (api : ApiState) (log : List String),
    (∀ cmd, cmd ∈ cmds → ∃ id name, cfg.getStr ("id-" ++ cmd) = some id ∧
      cfg.getStr ("name-" ++ cmd) = some name ∧
      containsId api.availableEntities id = true) →
    ∃ log', startcheckAux cfg cmds (api, log) = some (api, log') := by
  induction cmds with
  | nil =>
    intro api log _
    exact ⟨log, rfl⟩
  | cons c rest ih =>
    intro api log hall
    obtain ⟨id, name, hid, hname, hcont⟩ := hall c (List.mem_cons_self c rest)
    have hstep : startcheckStep cfg (api, log) c =
        some (api, log ++
          ["Entity with id " ++ id ++ " is already in storage as available entity"]) := by
      simp [startcheckStep, hid, hname, hcont]
    obtain ⟨log', hrest⟩ := ih api
      (log ++ ["Entity with id " ++ id ++ " is already in storage as available entity"])
      (fun cmd hm => hall cmd (List.mem_cons_of_mem c hm))
    refine ⟨log', ?_⟩
    simp only [startcheckAux, hstep]
    exact hrest

theorem startcheckAux_missing_key (cfg : ConfigStore) (cmds : List String) :
    ∀ (st : ApiState × List String) (cmd : String), cmd ∈ cmds →
    (cfg.getStr ("id-" ++ cmd) = none ∨ cfg.getStr ("name-" ++ cmd) = none) →
    startcheckAux cfg cmds st = none := by
  induction cmds with
  | nil =>
    intro st cmd hmem
    cases hmem
  | cons c rest ih =>
    intro st cmd hmem hmiss
    cases hstep : startcheckStep cfg st c with
    | none => simp only [startcheckAux, hstep]
    | some st₂ =>
      simp only [startcheckAux, hstep]
      rcases List.mem_cons.mp hmem with rfl | hmem'
      · obtain ⟨id, name, hid, hname, _⟩ := startcheckStep_some_elim hstep
        rcases hmiss with hm | hm
        · rw [hid] at hm
          exact Option.noConfusion hm
        · rw [hname] at hm
          exact Option.noConfusion hm
      · exact ih st₂ cmd hmem' hmiss

/-- Claim C1: for every command cmd in the config store's cmds list,
startcheck looks up "id-"+cmd and "name-"+cmd; an entity whose id is
already available is skipped, otherwise it is added, so after a successful
startcheck every configured id is present exactly once (starting from an
available-entity set without duplicate ids). -/
theorem startcheck_registers_each_id_once (s s' : DriverState)
    (hinv : ∀ x, countId s.api.availableEntities x ≤ 1)
    (hrun : startcheck s = some s')
    (cmd : String) (hmem : cmd ∈ s.config.cmds)
    (id : String) (hid : s.config.getStr ("id-" ++ cmd) = some id) :
    countId s'.api.availableEntities id = 1 := by
  cases haux : startcheckAux s.config s.config.cmds (s.api, s.log) with
  | none =>
    simp only [startcheck, haux] at hrun
    exact Option.noConfusion hrun
  | some st =>
    simp only [startcheck, haux] at hrun
    obtain rfl := Option.some_inj.mp hrun
    exact startcheckAux_each_id_once s.config s.config.cmds (s.api, s.log) st
      hinv haux cmd hmem id hid

/-- Claim C5: running startcheck twice in succession yields the same
available-entity set (indeed the same framework state and config store) as
running it once; the second run only skips. -/
theorem startcheck_idempotent (s s' : DriverState)
    (hrun : startcheck s = some s') :
    ∃ s'', startcheck s' = some s'' ∧ s''.api = s'.api ∧ s''.config = s'.config := by
  cases haux : startcheckAux s.config s.config.cmds (s.api, s.log) with
  | none =>
    simp only [startcheck, haux] at hrun
    exact Option.noConfusion hrun
  | some st =>
    simp only [startcheck, haux] at hrun
    obtain rfl := Option.some_inj.mp hrun
    have hall := startcheckAux_lookups_ok s.config s.config.cmds (s.api, s.log) st haux
    obtain ⟨log', hrun₂⟩ :=
      startcheckAux_all_contained_skip s.config s.config.cmds st.1 st.2 hall
    refine ⟨{ config := s.config, api := st.1, log := log' }, ?_, rfl, rfl⟩
    simp only [startcheck, hrun₂]

/-- Claim C8: if for some configured command the config store is missing
the id or the name entry, the lookup failure propagates out of startcheck
uncaught; there is no error branch. -/
theorem startcheck_missing_key_propagates (s : DriverState) (cmd : String)
    (hmem : cmd ∈ s.config.cmds)
    (hmiss : s.config.getStr ("id-" ++ cmd) = none ∨
      s.config.getStr ("name-" ++ cmd) = none) :
    startcheck s = none := by
  have h := startcheckAux_missing_key s.config s.config.cmds (s.api, s.log) cmd hmem hmiss
  simp only [startcheck, h]

/-- The config store of the spec's test sketch: commands a and b with
their id and name entries. -/
def exampleConfig : ConfigStore :=
  { cmds := ["a", "b"]
    entries := [("id-a", ConfigValue.str "p1"), ("name-a", ConfigValue.str "Device 1"),
                ("id-b", ConfigValue.str "p2"), ("name-b", ConfigValue.str "Device 2")] }

/-- A fresh driver state over exampleConfig with no registered entities. -/
def exampleState : DriverState :=
  { config := exampleConfig
    api := { availableEntities := [], deviceState := DeviceStates.DISCONNECTED }
    log := [] }

/-- A driver state whose config store lacks the id entry of command a. -/
def exampleMissingState : DriverState :=
  { config := { cmds := ["a"], entries := [("name-a", ConfigValue.str "Device 1")] }
    api := { availableEntities := [], deviceState := DeviceStates.DISCONNECTED }
    log := [] }

/-- Witness for C1 at the spec's example: after startcheck on the a/b
config, the id p1 is present exactly once. -/
theorem startcheck_registers_each_id_once_witness :
    countId ((startcheck exampleState).getD exampleState).api.availableEntities "p1" = 1 :=
  startcheck_registers_each_id_once exampleState
    ((startcheck exampleState).getD exampleState)
    (fun x => by simp [exampleState, countId])
    (by decide) "a" (by decide) "p1" (by decide)

/-- Witness for C5 at the spec's example: a second startcheck run on the
result of the first leaves the framework state and config unchanged. -/
theorem startcheck_idempotent_witness :
    ∃ s'', startcheck ((startcheck exampleState).getD exampleState) = some s'' ∧
      s''.api = ((startcheck exampleState).getD exampleState).api ∧
      s''.config = ((startcheck exampleState).getD exampleState).config :=
  startcheck_idempotent exampleState ((startcheck exampleState).getD exampleState)
    (by decide)

/-- Witness for C8: with the id entry of command a missing, startcheck
fails as a whole. -/
theorem startcheck_missing_key_propagates_witness :
    startcheck exampleMissingState = none :=
  startcheck_missing_key_propagates exampleMissingState "a" (by decide)
    (Or.inl (by decide))
